import Mathlib

/-!
Shallow embedding of the VisionEdge-Microservices analytics pipeline
(`src/app.py`, `src/detector/business_analytics.py`,
`src/detector/video_processor.py`, `src/detector/event_logger.py`).

Machine reals (Python floats) are modelled as exact rationals `ℚ`;
bounding-box coordinates are integers (the detector clamps them to ints).
Python dicts (insertion-ordered, assignment replaces in place) are
modelled as association lists with in-place replacement.
Wall-clock values (`time.time()` results, per-call durations) are passed
as explicit parameters.
-/

namespace VisionEdge

/-- A bounding box `(x1, y1, x2, y2)` in pixel coordinates, as produced by
`VideoProcessor.process_frame` (clamped to integers). -/
structure Box where
  x1 : Int
  y1 : Int
  x2 : Int
  y2 : Int
deriving DecidableEq, Repr

/-- Embedding of `BusinessAnalytics._calculate_iou`: intersection over union
of two boxes; `0` when the union area is not positive. -/
def calculateIou (box1 box2 : Box) : ℚ :=
  let ix1 := max box1.x1 box2.x1
  let iy1 := max box1.y1 box2.y1
  let ix2 := min box1.x2 box2.x2
  let iy2 := min box1.y2 box2.y2
  let intersection : Int := max 0 (ix2 - ix1) * max 0 (iy2 - iy1)
  let box1Area : Int := (box1.x2 - box1.x1) * (box1.y2 - box1.y1)
  let box2Area : Int := (box2.x2 - box2.x1) * (box2.y2 - box2.y1)
  let union : Int := box1Area + box2Area - intersection
  if union > 0 then (intersection : ℚ) / (union : ℚ) else 0

/-- Geometric area of the union of two boxes, exactly as the Python source
computes it (`box1_area + box2_area - intersection`). -/
def unionArea (box1 box2 : Box) : Int :=
  let ix1 := max box1.x1 box2.x1
  let iy1 := max box1.y1 box2.y1
  let ix2 := min box1.x2 box2.x2
  let iy2 := min box1.y2 box2.y2
  let intersection : Int := max 0 (ix2 - ix1) * max 0 (iy2 - iy1)
  (box1.x2 - box1.x1) * (box1.y2 - box1.y1)
    + (box2.x2 - box2.x1) * (box2.y2 - box2.y1) - intersection

/-- Two boxes are disjoint when their overlap is empty on the x-axis or on
the y-axis. -/
def boxesDisjoint (box1 box2 : Box) : Prop :=
  min box1.x2 box2.x2 ≤ max box1.x1 box2.x1 ∨
  min box1.y2 box2.y2 ≤ max box1.y1 box2.y1

instance (box1 box2 : Box) : Decidable (boxesDisjoint box1 box2) := by
  unfold boxesDisjoint
  infer_instance

/-- Embedding of `VideoProcessor._determine_zone`: classify a bbox into a
zone by the horizontal position of its center (the vertical center is
computed by the source but unused). -/
def determineZone (x1 y1 x2 y2 : Int) (width height : Int) : String :=
  let centerX : ℚ := ((x1 : ℚ) + (x2 : ℚ)) / 2
  let _centerY : ℚ := ((y1 : ℚ) + (y2 : ℚ)) / 2
  let _h := height
  if centerX < (width : ℚ) * (33 / 100) then "entrance"
  else if centerX < (width : ℚ) * (66 / 100) then "middle"
  else "exit"

/-- Capacity of the frame queue (`Queue(maxsize=10)` in `VideoProcessor`). -/
def queueCapacity : Nat := 10

/-- One producer step of `VideoProcessor.generate_frames`: if the FIFO queue
is full, discard the oldest entry (`get_nowait`), then enqueue the new
frame (`put`). -/
def queuePush (q : List Nat) (f : Nat) : List Nat :=
  let q' := if q.length = queueCapacity then q.drop 1 else q
  q' ++ [f]

/-- Feed a whole list of frames through `queuePush`, oldest first. -/
def queuePushAll (q : List Nat) (fs : List Nat) : List Nat :=
  fs.foldl queuePush q

/-! ## Dictionary helpers

Python dicts preserve insertion order; assigning to an existing key
replaces the value in place, assigning to a fresh key appends at the end.
They are modelled as association lists with unique keys. -/

/-- Lookup in an insertion-ordered dict. -/
def dictGet? {κ α : Type} [DecidableEq κ] (m : List (κ × α)) (k : κ) : Option α :=
  (m.find? fun p => p.1 = k).map (·.2)

/-- Lookup with a default value (the behaviour of `defaultdict` reads and of
`.get(k, d)`). -/
def dictGetD {κ α : Type} [DecidableEq κ] (m : List (κ × α)) (k : κ) (d : α) : α :=
  (dictGet? m k).getD d

/-- Assignment `m[k] = v`: replace in place when the key exists, append
otherwise. -/
def dictInsert {κ α : Type} [DecidableEq κ] (m : List (κ × α)) (k : κ) (v : α) :
    List (κ × α) :=
  if m.any fun p => p.1 = k then m.map fun p => if p.1 = k then (k, v) else p
  else m ++ [(k, v)]

/-- Increment `m[k] += 1` on a `defaultdict(int)`. -/
def dictBump {κ : Type} [DecidableEq κ] (m : List (κ × Nat)) (k : κ) : List (κ × Nat) :=
  dictInsert m k (dictGetD m k 0 + 1)

/-! ## Object tracker (`BusinessAnalytics._track_object`) -/

/-- A tracked-object record, the value stored in `self.object_tracking`. -/
structure ObjData where
  cls : String
  bbox : Box
  firstSeen : ℚ
  lastSeen : ℚ
  zone : String
  confidence : ℚ
  trajectory : List Box
deriving DecidableEq, Repr

/-- An incoming detection (`detection_data`). The `zone` and `confidence`
keys may be absent, which the source reads with `.get(..., default)`. -/
structure Detection where
  className : String
  confidence : Option ℚ
  bbox : Box
  zone : Option String
deriving DecidableEq, Repr

/-- Stale-object eviction: keep the objects seen less than five seconds ago
(line `if current_time - v['last_seen'] < 5`). -/
def evictStale (tracking : List (String × ObjData)) (t : ℚ) :
    List (String × ObjData) :=
  tracking.filter fun p => t - p.2.lastSeen < 5

/-- One iteration of the matching loop of `_track_object`: the accumulator
is `(best_match, best_iou)`; a same-class object with a strictly larger IoU
replaces it. -/
def scanStep (cls : String) (bbox : Box) (acc : Option String × ℚ)
    (p : String × ObjData) : Option String × ℚ :=
  if p.2.cls = cls then
    if calculateIou bbox p.2.bbox > acc.2 then (some p.1, calculateIou bbox p.2.bbox)
    else acc
  else acc

/-- The matching loop of `_track_object`: fold `scanStep` over the live
objects starting from `(None, 0.5)`. -/
def scanBest (tracking : List (String × ObjData)) (cls : String) (bbox : Box) :
    Option String × ℚ :=
  tracking.foldl (scanStep cls bbox) (none, 1 / 2)

/-- Result of `_track_object`: the returned object id, the new tracking
table, and the zone-transition key whose counter must be incremented when a
matched object changed zone (`"{old}_to_{new}"`). -/
structure TrackResult where
  objId : String
  tracking : List (String × ObjData)
  transition : Option String
deriving DecidableEq, Repr

/-- The in-place update applied to a matched record
(`self.object_tracking[best_match].update({...})`). -/
def updateRecord (det : Detection) (t : ℚ) (o : ObjData) : ObjData :=
  { o with
      bbox := det.bbox, lastSeen := t, zone := det.zone.getD "unknown",
      confidence := det.confidence.getD 0, trajectory := o.trajectory ++ [det.bbox] }

/-- The record stored for a newly allocated object. -/
def freshRecord (det : Detection) (t : ℚ) : ObjData :=
  { cls := det.className, bbox := det.bbox, firstSeen := t, lastSeen := t,
    zone := det.zone.getD "unknown", confidence := det.confidence.getD 0,
    trajectory := [det.bbox] }

/-- Embedding of `BusinessAnalytics._track_object`: evict stale objects,
match the detection against same-class live objects by maximal IoU above
`0.5`, update the match in place, or allocate the id
`"{class}_{len(object_tracking)}"` and store a fresh record. The function
is total: absence of a match is a normal outcome, not an error. -/
def trackObject (tracking : List (String × ObjData)) (det : Detection) (t : ℚ) :
    TrackResult :=
  let live := evictStale tracking t
  match (scanBest live det.className det.bbox).1 with
  | some bestId =>
      match dictGet? live bestId with
      | some obj =>
          let newZone := det.zone.getD "unknown"
          let transition :=
            if obj.zone ≠ newZone then some (obj.zone ++ "_to_" ++ newZone) else none
          { objId := bestId,
            tracking := live.map fun p =>
              if p.1 = bestId then (p.1, updateRecord det t p.2) else p,
            transition := transition }
      | none =>
          -- unreachable: `scanBest` only ever returns keys of `live`
          { objId := bestId, tracking := live, transition := none }
  | none =>
      let objId := det.className ++ "_" ++ toString live.length
      { objId := objId,
        tracking := dictInsert live objId (freshRecord det t),
        transition := none }

/-! ## Business metrics (`BusinessAnalytics.reset_metrics` and the
per-business-type update methods) -/

/-- The `performance_metrics` sub-dict. -/
structure PerfMetrics where
  detectionRate : ℚ
  processingTime : ℚ
  confidenceAvg : ℚ
deriving DecidableEq, Repr

/-- The `metrics['supermarket']` dict, field per key, in source order. -/
structure SupermarketMetrics where
  personCount : Nat
  cartCount : Nat
  productCount : Nat
  zoneDensity : List (String × Nat)
  averageStayTime : ℚ
  backpackCount : Nat
  handbagCount : Nat
  cellphoneCount : Nat
  peakHours : List (Nat × Nat)
  objectTrends : List (String × List ℚ)
  zoneTransitions : List (String × Nat)
  performanceMetrics : PerfMetrics
deriving DecidableEq, Repr

/-- The `metrics['pharmacy']` dict, field per key, in source order. -/
structure PharmacyMetrics where
  personCount : Nat
  prescriptionCount : Nat
  medicineCount : Nat
  zoneDensity : List (String × Nat)
  averageStayTime : ℚ
  backpackCount : Nat
  handbagCount : Nat
  chairCount : Nat
  peakHours : List (Nat × Nat)
  objectTrends : List (String × List ℚ)
  zoneTransitions : List (String × Nat)
  performanceMetrics : PerfMetrics
deriving DecidableEq, Repr

/-- The `metrics['condominium']` dict, field per key, in source order. -/
structure CondominiumMetrics where
  personCount : Nat
  carCount : Nat
  bicycleCount : Nat
  zoneDensity : List (String × Nat)
  averageStayTime : ℚ
  dogCount : Nat
  catCount : Nat
  backpackCount : Nat
  peakHours : List (Nat × Nat)
  objectTrends : List (String × List ℚ)
  zoneTransitions : List (String × Nat)
  performanceMetrics : PerfMetrics
deriving DecidableEq, Repr

/-- The whole `self.metrics` dict (always holds all three per-type dicts). -/
structure Metrics where
  supermarket : SupermarketMetrics
  pharmacy : PharmacyMetrics
  condominium : CondominiumMetrics
deriving DecidableEq, Repr

def initPerfMetrics : PerfMetrics := { detectionRate := 0, processingTime := 0, confidenceAvg := 0 }

def initSupermarketMetrics : SupermarketMetrics :=
  { personCount := 0, cartCount := 0, productCount := 0, zoneDensity := [],
    averageStayTime := 0, backpackCount := 0, handbagCount := 0, cellphoneCount := 0,
    peakHours := [], objectTrends := [], zoneTransitions := [],
    performanceMetrics := initPerfMetrics }

def initPharmacyMetrics : PharmacyMetrics :=
  { personCount := 0, prescriptionCount := 0, medicineCount := 0, zoneDensity := [],
    averageStayTime := 0, backpackCount := 0, handbagCount := 0, chairCount := 0,
    peakHours := [], objectTrends := [], zoneTransitions := [],
    performanceMetrics := initPerfMetrics }

def initCondominiumMetrics : CondominiumMetrics :=
  { personCount := 0, carCount := 0, bicycleCount := 0, zoneDensity := [],
    averageStayTime := 0, dogCount := 0, catCount := 0, backpackCount := 0,
    peakHours := [], objectTrends := [], zoneTransitions := [],
    performanceMetrics := initPerfMetrics }

/-- The zero metrics produced by `reset_metrics`. -/
def initMetrics : Metrics :=
  { supermarket := initSupermarketMetrics, pharmacy := initPharmacyMetrics,
    condominium := initCondominiumMetrics }

/-- Apply an update to the per-type dict selected by `metrics[business_type]`;
an unknown business type leaves the metrics unchanged (callers guard the
`KeyError` separately). -/
def Metrics.applyAt (ms : Metrics) (bt : String)
    (fS : SupermarketMetrics → SupermarketMetrics)
    (fP : PharmacyMetrics → PharmacyMetrics)
    (fC : CondominiumMetrics → CondominiumMetrics) : Metrics :=
  if bt = "supermarket" then { ms with supermarket := fS ms.supermarket }
  else if bt = "pharmacy" then { ms with pharmacy := fP ms.pharmacy }
  else if bt = "condominium" then { ms with condominium := fC ms.condominium }
  else ms

/-- An entry of `self.detection_history`. -/
structure HistEntry where
  time : ℚ
  data : Detection
  objId : String
deriving DecidableEq, Repr

/-- The mutable state of one `BusinessAnalytics` instance (the fields
assigned by `reset_metrics`; `business_configs` is static data). -/
structure AnalyticsState where
  businessType : String
  metrics : Metrics
  detectionHistory : List HistEntry
  lastUpdate : ℚ
  objectTracking : List (String × ObjData)
  objectPositions : List (String × Box)
  objectTimestamps : List (String × ℚ)
  performanceHistory : List ℚ
deriving DecidableEq, Repr

/-- Embedding of `reset_metrics`, with the wall-clock value written into
`last_update` passed explicitly. -/
def resetMetricsAt (t : ℚ) (st : AnalyticsState) : AnalyticsState :=
  { st with
      metrics := initMetrics, detectionHistory := [], lastUpdate := t,
      objectTracking := [], objectPositions := [], objectTimestamps := [],
      performanceHistory := [] }

/-- A fresh `BusinessAnalytics(business_type)` instance (the constructor
stores the type and calls `reset_metrics`). -/
def initState (bt : String) (t : ℚ) : AnalyticsState :=
  resetMetricsAt t
    { businessType := bt, metrics := initMetrics, detectionHistory := [],
      lastUpdate := t, objectTracking := [], objectPositions := [],
      objectTimestamps := [], performanceHistory := [] }

/-- Arithmetic mean of a list (`np.mean`); the source only applies it to
nonempty lists. -/
def listMean (l : List ℚ) : ℚ := l.sum / (l.length : ℚ)

/-- Count of history entries of one class inside the five-second window, the
list comprehension shared by all counting branches. -/
def countClass (hist : List HistEntry) (t : ℚ) (cls : String) : Nat :=
  (hist.filter fun d => d.data.className = cls ∧ t - d.time < 5).length

/-- Count of history entries whose class lies in a class set inside the
five-second window. -/
def countClassSet (hist : List HistEntry) (t : ℚ) (clss : List String) : Nat :=
  (hist.filter fun d => d.data.className ∈ clss ∧ t - d.time < 5).length

/-- Count of history entries in the given zone inside the five-second
window (`d['data'].get('zone') == detection_data['zone']`). -/
def countZone (hist : List HistEntry) (t : ℚ) (z : String) : Nat :=
  (hist.filter fun d => d.data.zone = some z ∧ t - d.time < 5).length

/-- The `stay_times` list built by every per-type update method: one entry
per tracked `person` whose `last_seen - first_seen` is below 300 seconds. -/
def stayTimes (tracking : List (String × ObjData)) : List ℚ :=
  tracking.filterMap fun p =>
    if p.2.cls = "person" then
      let stayTime := p.2.lastSeen - p.2.firstSeen
      if stayTime < 300 then some stayTime else none
    else none

/-- The supermarket product class set. -/
def productClasses : List String :=
  ["bottle", "cup", "bowl", "banana", "apple", "orange", "sandwich", "carrot"]

/-- The pharmacy medicine class set. -/
def medicineClasses : List String := ["bottle", "cup", "bowl"]

/-- The trailing average-stay-time step of `_update_supermarket_metrics`
(`if stay_times: metrics['average_stay_time'] = np.mean(stay_times)`). -/
def stayTimeStepSupermarket (tracking : List (String × ObjData))
    (m : SupermarketMetrics) : SupermarketMetrics :=
  let stayTimesList := stayTimes tracking
  if stayTimesList = [] then m
  else { m with averageStayTime := listMean stayTimesList }

/-- The trailing average-stay-time step of `_update_pharmacy_metrics`. -/
def stayTimeStepPharmacy (tracking : List (String × ObjData))
    (m : PharmacyMetrics) : PharmacyMetrics :=
  let stayTimesList := stayTimes tracking
  if stayTimesList = [] then m
  else { m with averageStayTime := listMean stayTimesList }

/-- The trailing average-stay-time step of `_update_condominium_metrics`. -/
def stayTimeStepCondominium (tracking : List (String × ObjData))
    (m : CondominiumMetrics) : CondominiumMetrics :=
  let stayTimesList := stayTimes tracking
  if stayTimesList = [] then m
  else { m with averageStayTime := listMean stayTimesList }

/-- Embedding of `_update_supermarket_metrics` (the class-count branches,
the zone-density branch, then the stay-time step). -/
def updateSupermarketMetrics (det : Detection) (hist : List HistEntry)
    (tracking : List (String × ObjData)) (t : ℚ)
    (m0 : SupermarketMetrics) : SupermarketMetrics :=
  let m1 := if det.className = "person" then
      { m0 with personCount := countClass hist t "person" } else m0
  let m2 := if det.className = "shopping cart" then
      { m1 with cartCount := countClass hist t "shopping cart" } else m1
  let m3 := if det.className ∈ productClasses then
      { m2 with productCount := countClassSet hist t productClasses } else m2
  let m4 := if det.className = "backpack" then
      { m3 with backpackCount := countClass hist t "backpack" } else m3
  let m5 := if det.className = "handbag" then
      { m4 with handbagCount := countClass hist t "handbag" } else m4
  let m6 := if det.className = "cell phone" then
      { m5 with cellphoneCount := countClass hist t "cell phone" } else m5
  let m7 := match det.zone with
    | some z => { m6 with zoneDensity := dictInsert m6.zoneDensity z (countZone hist t z) }
    | none => m6
  stayTimeStepSupermarket tracking m7

/-- Embedding of `_update_pharmacy_metrics`. -/
def updatePharmacyMetrics (det : Detection) (hist : List HistEntry)
    (tracking : List (String × ObjData)) (t : ℚ)
    (m0 : PharmacyMetrics) : PharmacyMetrics :=
  let m1 := if det.className = "person" then
      { m0 with personCount := countClass hist t "person" } else m0
  let m2 := if det.className = "book" then
      { m1 with prescriptionCount := countClass hist t "book" } else m1
  let m3 := if det.className ∈ medicineClasses then
      { m2 with medicineCount := countClassSet hist t medicineClasses } else m2
  let m4 := if det.className = "backpack" then
      { m3 with backpackCount := countClass hist t "backpack" } else m3
  let m5 := if det.className = "handbag" then
      { m4 with handbagCount := countClass hist t "handbag" } else m4
  let m6 := if det.className = "chair" then
      { m5 with chairCount := countClass hist t "chair" } else m5
  let m7 := match det.zone with
    | some z => { m6 with zoneDensity := dictInsert m6.zoneDensity z (countZone hist t z) }
    | none => m6
  stayTimeStepPharmacy tracking m7

/-- Embedding of `_update_condominium_metrics`. -/
def updateCondominiumMetrics (det : Detection) (hist : List HistEntry)
    (tracking : List (String × ObjData)) (t : ℚ)
    (m0 : CondominiumMetrics) : CondominiumMetrics :=
  let m1 := if det.className = "person" then
      { m0 with personCount := countClass hist t "person" } else m0
  let m2 := if det.className = "car" then
      { m1 with carCount := countClass hist t "car" } else m1
  let m3 := if det.className = "bicycle" then
      { m2 with bicycleCount := countClass hist t "bicycle" } else m2
  let m4 := if det.className = "dog" then
      { m3 with dogCount := countClass hist t "dog" } else m3
  let m5 := if det.className = "cat" then
      { m4 with catCount := countClass hist t "cat" } else m4
  let m6 := if det.className = "backpack" then
      { m5 with backpackCount := countClass hist t "backpack" } else m5
  let m7 := match det.zone with
    | some z => { m6 with zoneDensity := dictInsert m6.zoneDensity z (countZone hist t z) }
    | none => m6
  stayTimeStepCondominium tracking m7

/-! ## Detection processing (`BusinessAnalytics.process_detection`) -/

/-- The business types configured in `business_configs` (the keys of
`self.metrics`; any other value of `self.business_type` makes the dict
accesses `self.metrics[self.business_type]` raise `KeyError`). -/
def validBusinessTypes : List String := ["supermarket", "pharmacy", "condominium"]

/-- Wall-clock hour of a timestamp
(`datetime.fromtimestamp(current_time).hour`, modelled in UTC). -/
def hourOf (t : ℚ) : Nat := (⌊t⌋.toNat / 3600) % 24

/-- Append a timestamp to `object_trends[class]` and drop the oldest entry
when the list exceeds 100. -/
def trendAppend (m : List (String × List ℚ)) (k : String) (t : ℚ) :
    List (String × List ℚ) :=
  let l := dictGetD m k [] ++ [t]
  dictInsert m k (if l.length > 100 then l.drop 1 else l)

/-- Embedding of `process_detection`. Wall-clock inputs are explicit: `t` is
the `time.time()` the call observes and `procDur` the measured per-call
duration appended to `performance_history`. The second component records
the `KeyError` a non-configured business type raises (the state component
then holds the mutations already applied before the raise, as in Python). -/
def processDetection (st : AnalyticsState) (det : Detection) (t procDur : ℚ) :
    AnalyticsState × Option String :=
  let tr := trackObject st.objectTracking det t
  if tr.transition.isSome ∧ st.businessType ∉ validBusinessTypes then
    -- KeyError inside the zone-transition increment of `_track_object`:
    -- stale eviction already happened, nothing else did.
    ({ st with objectTracking := evictStale st.objectTracking t }, some "KeyError")
  else
    let ms1 := match tr.transition with
      | some key =>
          st.metrics.applyAt st.businessType
            (fun m => { m with zoneTransitions := dictBump m.zoneTransitions key })
            (fun m => { m with zoneTransitions := dictBump m.zoneTransitions key })
            (fun m => { m with zoneTransitions := dictBump m.zoneTransitions key })
      | none => st.metrics
    let newEntry : HistEntry := { time := t, data := det, objId := tr.objId }
    let hist := (st.detectionHistory ++ [newEntry]).filter fun d => t - d.time < 5
    let ms2 :=
      if st.businessType = "supermarket" then
        { ms1 with supermarket := updateSupermarketMetrics det hist tr.tracking t ms1.supermarket }
      else if st.businessType = "pharmacy" then
        { ms1 with pharmacy := updatePharmacyMetrics det hist tr.tracking t ms1.pharmacy }
      else if st.businessType = "condominium" then
        { ms1 with condominium := updateCondominiumMetrics det hist tr.tracking t ms1.condominium }
      else ms1
    let perf0 := st.performanceHistory ++ [procDur]
    let perf := if perf0.length > 100 then perf0.drop 1 else perf0
    if st.businessType ∉ validBusinessTypes then
      -- KeyError at `self.metrics[self.business_type]['performance_metrics']`
      ({ st with
          metrics := ms2, objectTracking := tr.tracking, detectionHistory := hist,
          performanceHistory := perf }, some "KeyError")
    else
      let newPerf : PerfMetrics :=
        { detectionRate := (hist.length : ℚ) / 5,
          processingTime := listMean perf,
          confidenceAvg := listMean (hist.map fun d => d.data.confidence.getD 0) }
      let ms3 := ms2.applyAt st.businessType
        (fun m => { m with performanceMetrics := newPerf })
        (fun m => { m with performanceMetrics := newPerf })
        (fun m => { m with performanceMetrics := newPerf })
      let ms4 := ms3.applyAt st.businessType
        (fun m => { m with peakHours := dictBump m.peakHours (hourOf t) })
        (fun m => { m with peakHours := dictBump m.peakHours (hourOf t) })
        (fun m => { m with peakHours := dictBump m.peakHours (hourOf t) })
      let ms5 := ms4.applyAt st.businessType
        (fun m => { m with objectTrends := trendAppend m.objectTrends det.className t })
        (fun m => { m with objectTrends := trendAppend m.objectTrends det.className t })
        (fun m => { m with objectTrends := trendAppend m.objectTrends det.className t })
      ({ st with
          metrics := ms5, objectTracking := tr.tracking, detectionHistory := hist,
          performanceHistory := perf, lastUpdate := t }, none)

/-- One detection event fed to the aggregator: the detection plus the
wall-clock values of its `process_detection` call. -/
structure DetEvent where
  det : Detection
  t : ℚ
  procDur : ℚ
deriving DecidableEq, Repr

/-- Run a sequence of detections through the aggregator. The caller
(`process_frame`) catches per-detection exceptions and continues with the
mutated state, so only the state component is threaded. -/
def processAll (st : AnalyticsState) (evs : List DetEvent) : AnalyticsState :=
  evs.foldl (fun s e => (processDetection s e.det e.t e.procDur).1) st

/-! ## Configuration boundary (`set_business_type` in `src/app.py`) -/

/-- The HTTP outcome of the `/set_business_type` handler: the 200 success
message, the 400 for a missing business type, or the 500 produced when the
blanket `except` catches an exception. -/
inductive SetTypeResponse where
  | ok
  | badRequest
  | serverError
deriving DecidableEq, Repr

/-- Embedding of the `/set_business_type` handler body (`src/app.py`): a
missing or falsy (empty) `business_type` is rejected with a 400 and no
state change. Otherwise the handler stores the value unchecked and calls
`reset_metrics`; the following `EventLogger(..., business_type=...)`
re-creation then raises `TypeError` — `EventLogger.__init__` accepts no
such keyword — which the blanket `except` turns into a 500. The `ok`
response is therefore unreachable: every nonempty request mutates the
analytics state yet reports an error. -/
def setBusinessType (st : AnalyticsState) (body : Option String) (t : ℚ) :
    AnalyticsState × SetTypeResponse :=
  match body with
  | none => (st, SetTypeResponse.badRequest)
  | some bt =>
      if bt = "" then (st, SetTypeResponse.badRequest)
      else (resetMetricsAt t { st with businessType := bt },
            SetTypeResponse.serverError)

/-! ## Event logger (`src/detector/event_logger.py`) -/

/-- An event record as built by `EventLogger.log_event`. The `data` payload
is kept opaque. -/
structure LogEvent where
  timestamp : ℚ
  datetime : String
  eventType : String
  data : String
  confidence : Option ℚ
deriving DecidableEq, Repr

/-- Opaque stand-in for `datetime.fromtimestamp(ts).strftime(...)`; the
formatted string is never inspected by the code under verification. -/
def formatTimestamp (t : ℚ) : String := toString t

/-- Capacity of the in-memory buffer (`deque(maxlen=1000)`). -/
def maxEvents : Nat := 1000

/-- Append to a bounded deque: the oldest entries are dropped once the
length exceeds the capacity. -/
def dequeAppend (buf : List LogEvent) (e : LogEvent) : List LogEvent :=
  let b := buf ++ [e]
  if b.length > maxEvents then b.drop (b.length - maxEvents) else b

/-- State of an `EventLogger`: the in-memory ring buffer and the parsed
content of the durable log file. -/
structure LoggerState where
  eventsBuffer : List LogEvent
  fileLines : List LogEvent
deriving DecidableEq, Repr

/-- The event record built at the top of `EventLogger.log_event`. -/
def mkLogEvent (eventType dataStr : String) (confidence : Option ℚ)
    (timestamp : ℚ) : LogEvent :=
  { timestamp := timestamp, datetime := formatTimestamp timestamp,
    eventType := eventType, data := dataStr, confidence := confidence }

/-- Embedding of `EventLogger.log_event`. The whole body runs inside
`try/except`, so the function is total; `writeFails` says whether the
durable append (`open(...).write`) raises. The buffer append precedes the
file write in the source, so a failed write leaves the event in the buffer
but not in the file. -/
def logEvent (st : LoggerState) (eventType : String) (dataStr : String)
    (confidence : Option ℚ) (timestamp : ℚ) (writeFails : Bool) : LoggerState :=
  let event := mkLogEvent eventType dataStr confidence timestamp
  let st1 := { st with eventsBuffer := dequeAppend st.eventsBuffer event }
  if writeFails then st1
  else { st1 with fileLines := st1.fileLines ++ [event] }

/-- Embedding of `EventLogger.get_events`: filter the buffer by type and
time bounds, sort newest first (Python's stable sort with `reverse=True`),
and truncate to `limit`. -/
def getEvents (st : LoggerState) (limit : Nat) (eventType : Option String)
    (startTime endTime : Option ℚ) : List LogEvent :=
  let events := st.eventsBuffer
  let events : List LogEvent := match eventType with
    | some ty => events.filter fun e => e.eventType = ty
    | none => events
  let events : List LogEvent := match startTime with
    | some s => events.filter fun e => s ≤ e.timestamp
    | none => events
  let events : List LogEvent := match endTime with
    | some en => events.filter fun e => e.timestamp ≤ en
    | none => events
  let events := events.mergeSort fun a b => b.timestamp ≤ a.timestamp
  events.take limit

/-! ## Theorems -/

/-- Helper: IoU is symmetric in its two boxes. -/
lemma calculateIou_comm (box1 box2 : Box) :
    calculateIou box1 box2 = calculateIou box2 box1 := by
  simp only [calculateIou]
  rw [max_comm box2.x1 box1.x1, max_comm box2.y1 box1.y1,
      min_comm box2.x2 box1.x2, min_comm box2.y2 box1.y2,
      add_comm ((box2.x2 - box2.x1) * (box2.y2 - box2.y1))
        ((box1.x2 - box1.x1) * (box1.y2 - box1.y1))]

/-- Helper: a box of positive width and height has IoU `1` with itself. -/
lemma calculateIou_self (b : Box) (hx : b.x1 < b.x2) (hy : b.y1 < b.y2) :
    calculateIou b b = 1 := by
  have hA : (0 : ℤ) < (b.x2 - b.x1) * (b.y2 - b.y1) :=
    mul_pos (by omega) (by omega)
  simp only [calculateIou, max_self, min_self]
  rw [max_eq_right (by omega : (0 : ℤ) ≤ b.x2 - b.x1),
      max_eq_right (by omega : (0 : ℤ) ≤ b.y2 - b.y1)]
  have h2 : (b.x2 - b.x1) * (b.y2 - b.y1) + (b.x2 - b.x1) * (b.y2 - b.y1)
      - (b.x2 - b.x1) * (b.y2 - b.y1) = (b.x2 - b.x1) * (b.y2 - b.y1) := by ring
  rw [h2, if_pos hA]
  exact div_self (by exact_mod_cast hA.ne')

/-- Helper: disjoint boxes have IoU `0`. -/
lemma calculateIou_of_disjoint (box1 box2 : Box) (h : boxesDisjoint box1 box2) :
    calculateIou box1 box2 = 0 := by
  simp only [calculateIou]
  have hI : max 0 (min box1.x2 box2.x2 - max box1.x1 box2.x1)
      * max 0 (min box1.y2 box2.y2 - max box1.y1 box2.y1) = 0 := by
    rcases h with h | h
    · rw [max_eq_left (by omega : min box1.x2 box2.x2 - max box1.x1 box2.x1 ≤ 0)]
      ring
    · rw [max_eq_left (by omega : min box1.y2 box2.y2 - max box1.y1 box2.y1 ≤ 0)]
      ring
  rw [hI]
  split
  · norm_num
  · rfl

/-- Helper: IoU is `0` whenever the union area is `0`. -/
lemma calculateIou_of_unionArea_eq_zero (box1 box2 : Box)
    (h : unionArea box1 box2 = 0) : calculateIou box1 box2 = 0 := by
  simp only [unionArea] at h
  simp only [calculateIou]
  rw [if_neg (by rw [h]; exact lt_irrefl 0)]

/-- C5 (amended): the IoU computation is symmetric, sends disjoint boxes to
`0` and sends a pair with union area `0` to `0`; a box identical to itself
has IoU `1` provided its width and height are positive (a degenerate box of
zero area falls into the `union == 0` branch and gets IoU `0` instead). -/
theorem iou_algebraic_properties :
    (∀ b : Box, b.x1 < b.x2 → b.y1 < b.y2 → calculateIou b b = 1) ∧
    (∀ box1 box2 : Box, boxesDisjoint box1 box2 → calculateIou box1 box2 = 0) ∧
    (∀ box1 box2 : Box, calculateIou box1 box2 = calculateIou box2 box1) ∧
    (∀ box1 box2 : Box, unionArea box1 box2 = 0 → calculateIou box1 box2 = 0) :=
  ⟨calculateIou_self, calculateIou_of_disjoint, calculateIou_comm,
   calculateIou_of_unionArea_eq_zero⟩

/-- C5 counterexample: the claim as stated makes the IoU of any two
identical boxes equal to `1`, but the degenerate box `(0,0,0,0)` paired
with itself yields `0`. -/
theorem iou_identical_degenerate_counterexample :
    calculateIou ⟨0, 0, 0, 0⟩ ⟨0, 0, 0, 0⟩ ≠ 1 := by decide

/-- C5 witness: the amended identical-box and disjoint-box clauses applied
at concrete boxes. -/
theorem iou_algebraic_properties_witness :
    calculateIou ⟨0, 0, 2, 2⟩ ⟨0, 0, 2, 2⟩ = 1 ∧
    calculateIou ⟨0, 0, 1, 1⟩ ⟨5, 5, 6, 6⟩ = 0 ∧
    calculateIou ⟨0, 0, 0, 0⟩ ⟨0, 0, 0, 0⟩ = 0 :=
  ⟨iou_algebraic_properties.1 ⟨0, 0, 2, 2⟩ (by decide) (by decide),
   iou_algebraic_properties.2.1 ⟨0, 0, 1, 1⟩ ⟨5, 5, 6, 6⟩ (by decide),
   iou_algebraic_properties.2.2.2 ⟨0, 0, 0, 0⟩ ⟨0, 0, 0, 0⟩ (by decide)⟩

/-- C4 counterexample: pushing frames `1..15` through the capacity-10
drop-oldest queue retains the 10 newest frames, but a FIFO drain yields
them oldest-first (`[6, 7, ..., 15]`), not newest-first
(`[15, 14, ..., 6]`) as the claim states. -/
theorem queue_drain_not_newest_first :
    queuePushAll [] (List.range' 1 15) ≠ (List.range' 6 10).reverse := by decide

/-- C4 (amended): pushing 15 frames into the empty capacity-10 queue drops
exactly the 5 oldest, keeps the 10 newest, and drains them in arrival
(oldest-first) order. -/
theorem queue_keeps_newest_ten :
    queuePushAll [] (List.range' 1 15) = List.range' 6 10 := by decide

/-- C7: zone classification is a total function of the bbox and frame
width: `entrance` below `0.33·W`, `middle` from `0.33·W` up to `0.66·W`,
`exit` from `0.66·W` on, and the result is always one of the three zones,
never `"unknown"`. -/
theorem determineZone_total_cases (x1 y1 x2 y2 width height : Int)
    (hW : 0 < width) :
    ((((x1 : ℚ) + (x2 : ℚ)) / 2 < (width : ℚ) * (33 / 100) →
        determineZone x1 y1 x2 y2 width height = "entrance") ∧
     ((width : ℚ) * (33 / 100) ≤ ((x1 : ℚ) + (x2 : ℚ)) / 2 →
        ((x1 : ℚ) + (x2 : ℚ)) / 2 < (width : ℚ) * (66 / 100) →
        determineZone x1 y1 x2 y2 width height = "middle") ∧
     ((width : ℚ) * (66 / 100) ≤ ((x1 : ℚ) + (x2 : ℚ)) / 2 →
        determineZone x1 y1 x2 y2 width height = "exit")) ∧
    (determineZone x1 y1 x2 y2 width height = "entrance" ∨
     determineZone x1 y1 x2 y2 width height = "middle" ∨
     determineZone x1 y1 x2 y2 width height = "exit") := by
  have hW' : (0 : ℚ) ≤ (width : ℚ) := by exact_mod_cast hW.le
  have h33 : (width : ℚ) * (33 / 100) ≤ (width : ℚ) * (66 / 100) :=
    mul_le_mul_of_nonneg_left (by norm_num) hW'
  refine ⟨⟨?_, ?_, ?_⟩, ?_⟩ <;> simp only [determineZone]
  · intro h
    rw [if_pos h]
  · intro h1 h2
    rw [if_neg (not_lt.mpr h1), if_pos h2]
  · intro h
    rw [if_neg (not_lt.mpr (le_trans h33 h)), if_neg (not_lt.mpr h)]
  · split_ifs <;> simp

/-- C7 witness: the three zone cases at concrete inputs of frame width
`300`. -/
theorem determineZone_total_cases_witness :
    determineZone 0 0 10 2 300 200 = "entrance" ∧
    determineZone 140 0 160 2 300 200 = "middle" ∧
    determineZone 280 0 298 2 300 200 = "exit" :=
  ⟨(determineZone_total_cases 0 0 10 2 300 200 (by norm_num)).1.1 (by norm_num),
   (determineZone_total_cases 140 0 160 2 300 200 (by norm_num)).1.2.1
     (by norm_num) (by norm_num),
   (determineZone_total_cases 280 0 298 2 300 200 (by norm_num)).1.2.2 (by norm_num)⟩

/-- C3 counterexample: after submitting the non-configured business type
`"hospital"`, the previous configuration is not active any more — the
stored type has changed to `"hospital"` — and a subsequent
`process_detection` raises a `KeyError` instead of behaving as if the
request never happened. -/
theorem setBusinessType_invalid_mutates :
    "hospital" ∉ validBusinessTypes ∧
    (setBusinessType (initState "supermarket" 0) (some "hospital") 1).1.businessType
      = "hospital" ∧
    (setBusinessType (initState "supermarket" 0) (some "hospital") 1).1.businessType
      ≠ "supermarket" ∧
    (processDetection (setBusinessType (initState "supermarket" 0) (some "hospital") 1).1
        { className := "person", confidence := none, bbox := ⟨0, 0, 10, 10⟩, zone := none }
        2 0).2 = some "KeyError" := by
  refine ⟨by decide, rfl, by decide, by decide⟩

/-- C3 (amended): the configuration boundary performs no validation of the
business type. For every nonempty value, configured or not, the stored
type is replaced and the metrics are reset, and the handler then answers
with a 500 — the `EventLogger` re-creation raises `TypeError` on its
unexpected keyword, caught by the blanket `except` — so the state mutation
survives while the success response is unreachable. Only a missing or
empty value is rejected with a 400 and the previous configuration left
untouched. -/
theorem setBusinessType_mutates_then_errors (st : AnalyticsState) (bt : String)
    (t : ℚ) (h : bt ≠ "") :
    (setBusinessType st (some bt) t).2 = SetTypeResponse.serverError ∧
    (setBusinessType st (some bt) t).2 ≠ SetTypeResponse.ok ∧
    (setBusinessType st (some bt) t).1.businessType = bt ∧
    (setBusinessType st (some bt) t).1.metrics = initMetrics ∧
    (setBusinessType st (some bt) t).1.detectionHistory = [] ∧
    (setBusinessType st (some bt) t).1.objectTracking = [] ∧
    setBusinessType st none t = (st, SetTypeResponse.badRequest) ∧
    setBusinessType st (some "") t = (st, SetTypeResponse.badRequest) := by
  simp [setBusinessType, resetMetricsAt, h]

/-- C3 witness: the amended statement applied at a concrete invalid type. -/
theorem setBusinessType_mutates_then_errors_witness :
    (setBusinessType (initState "supermarket" 0) (some "hospital") 1).2
      = SetTypeResponse.serverError :=
  (setBusinessType_mutates_then_errors (initState "supermarket" 0) "hospital" 1
    (by decide)).1

/-- Helper: on a configured business type, `process_detection` never reads
`last_update`, it only overwrites it (on a `KeyError` path the old value
would survive, hence the hypothesis). -/
lemma processDetection_ignores_lastUpdate (st : AnalyticsState) (x : ℚ)
    (det : Detection) (t procDur : ℚ)
    (hbt : st.businessType ∈ validBusinessTypes) :
    (processDetection { st with lastUpdate := x } det t procDur).1 =
      (processDetection st det t procDur).1 := by
  have hnot : ¬ st.businessType ∉ validBusinessTypes := not_not_intro hbt
  simp only [processDetection, hnot, and_false, if_false]

/-- Helper: the metrics after a run do not depend on the starting
`last_update` value. -/
lemma processAll_metrics_ignores_lastUpdate (st : AnalyticsState) (x : ℚ)
    (evs : List DetEvent) (hbt : st.businessType ∈ validBusinessTypes) :
    (processAll { st with lastUpdate := x } evs).metrics
      = (processAll st evs).metrics := by
  cases evs with
  | nil => rfl
  | cons e es =>
      simp only [processAll, List.foldl_cons]
      rw [processDetection_ignores_lastUpdate st x e.det e.t e.procDur hbt]

/-- C6: switching the business type through the configuration boundary
resets all metrics to the zero state and clears the tracked-object and
detection-history state, so the metrics after processing any post-switch
detections equal those of a fresh instance of the new type processing only
those detections (the reset wall-clock values `t1`, `t2` are arbitrary). -/
theorem businessTypeSwitch_resets (bt0 bt : String) (t0 t1 t2 : ℚ)
    (pre post : List DetEvent) (hbt : bt ∈ validBusinessTypes) :
    (setBusinessType (processAll (initState bt0 t0) pre) (some bt) t1).1.metrics
      = initMetrics ∧
    (setBusinessType (processAll (initState bt0 t0) pre) (some bt) t1).1.objectTracking
      = [] ∧
    (setBusinessType (processAll (initState bt0 t0) pre) (some bt) t1).1.detectionHistory
      = [] ∧
    (processAll (setBusinessType (processAll (initState bt0 t0) pre) (some bt) t1).1
        post).metrics
      = (processAll (initState bt t2) post).metrics := by
  have h : bt ≠ "" := by
    rintro rfl
    exact absurd hbt (by decide)
  have hs : (setBusinessType (processAll (initState bt0 t0) pre) (some bt) t1).1
      = initState bt t1 := by
    simp only [setBusinessType, if_neg h]
    rfl
  refine ⟨by rw [hs]; rfl, by rw [hs]; rfl, by rw [hs]; rfl, ?_⟩
  rw [hs, show initState bt t1 = { initState bt t2 with lastUpdate := t1 } from rfl,
      processAll_metrics_ignores_lastUpdate _ _ _ hbt]

/-- C6 witness: the post-switch run equals the fresh run at concrete
inputs. -/
theorem businessTypeSwitch_resets_witness :
    (processAll (setBusinessType (processAll (initState "supermarket" 0) [])
        (some "condominium") 1).1 []).metrics
      = (processAll (initState "condominium" 2) []).metrics :=
  (businessTypeSwitch_resets "supermarket" "condominium" 0 1 2 [] []
    (by decide)).2.2.2

/-- Helper: the freshly appended event is the last buffer entry. -/
lemma dequeAppend_getLast? (buf : List LogEvent) (e : LogEvent) :
    (dequeAppend buf e).getLast? = some e := by
  simp only [dequeAppend]
  split
  · rename_i hlen
    have hk : (buf ++ [e]).length - maxEvents ≤ buf.length := by
      simp [maxEvents]
    rw [List.drop_append_of_le_length hk]
    simp
  · simp

/-- Helper: the freshly appended event is in the bounded buffer. -/
lemma mem_dequeAppend_self (buf : List LogEvent) (e : LogEvent) :
    e ∈ dequeAppend buf e := by
  simp only [dequeAppend]
  split
  · rename_i hlen
    have hk : (buf ++ [e]).length - maxEvents ≤ buf.length := by
      simp [maxEvents]
    rw [List.drop_append_of_le_length hk]
    simp
  · simp

/-- Helper: an unfiltered `get_events` query with a large enough limit
returns every buffered event. -/
lemma mem_getEvents_of_mem_buffer (st : LoggerState) (e : LogEvent)
    (h : e ∈ st.eventsBuffer) :
    e ∈ getEvents st st.eventsBuffer.length none none none := by
  simp only [getEvents]
  rw [List.take_of_length_le (le_of_eq (List.length_mergeSort st.eventsBuffer))]
  exact List.mem_mergeSort.mpr h

/-- C9: `log_event` is total (the embedding returns a state for every
input, mirroring the blanket `try/except`); the event is appended to the
in-memory buffer before the durable write is attempted, so on a failed
write the event is still the newest buffer entry, is visible to
`get_events`, and the durable log is unchanged, while on a successful
write it is also appended to the durable log. -/
theorem logEvent_buffer_before_file (st : LoggerState) (ty dataStr : String)
    (conf : Option ℚ) (ts : ℚ) (writeFails : Bool) :
    (logEvent st ty dataStr conf ts writeFails).eventsBuffer.getLast?
      = some (mkLogEvent ty dataStr conf ts) ∧
    mkLogEvent ty dataStr conf ts
      ∈ getEvents (logEvent st ty dataStr conf ts writeFails)
          (logEvent st ty dataStr conf ts writeFails).eventsBuffer.length
          none none none ∧
    (logEvent st ty dataStr conf ts writeFails).fileLines
      = (if writeFails then st.fileLines
         else st.fileLines ++ [mkLogEvent ty dataStr conf ts]) := by
  refine ⟨?_, ?_, ?_⟩
  · cases writeFails <;>
      simp [logEvent, dequeAppend_getLast?]
  · refine mem_getEvents_of_mem_buffer _ _ ?_
    cases writeFails <;>
      simp [logEvent, mem_dequeAppend_self]
  · cases writeFails <;> simp [logEvent]

/-- A concrete detection used by witnesses. -/
def sampleDetection : Detection :=
  { className := "person", confidence := some (9 / 10), bbox := ⟨0, 0, 10, 10⟩,
    zone := some "entrance" }

/-- C2: for every prior state on a configured business type and every
incoming detection, every history entry retained after `process_detection`
at time `t` has age strictly below five seconds. -/
theorem processDetection_prunes_history (st : AnalyticsState) (det : Detection)
    (t procDur : ℚ) (hbt : st.businessType ∈ validBusinessTypes) :
    ∀ e ∈ ((processDetection st det t procDur).1).detectionHistory,
      t - e.time < 5 := by
  intro e he
  have hnot : ¬ st.businessType ∉ validBusinessTypes := not_not_intro hbt
  simp only [processDetection, hnot, and_false, if_false] at he
  rw [List.mem_filter] at he
  exact of_decide_eq_true he.2

/-- C2 witness: the pruning bound applied to the entry produced by a
concrete call. -/
theorem processDetection_prunes_history_witness : (1 : ℚ) - 1 < 5 :=
  processDetection_prunes_history (initState "supermarket" 0) sampleDetection 1 0
    (by decide) { time := 1, data := sampleDetection, objId := "person_0" }
    (by with_unfolding_all decide)

/-- Helper: the `stay_times` list is empty exactly when no tracked `person`
has a stay time below 300 seconds. -/
lemma stayTimes_eq_nil_iff (tracking : List (String × ObjData)) :
    stayTimes tracking = []
      ↔ ¬ ∃ p ∈ tracking, p.2.cls = "person" ∧
          p.2.lastSeen - p.2.firstSeen < 300 := by
  rw [stayTimes, List.filterMap_eq_nil_iff]
  constructor
  · rintro h ⟨p, hp, hcls, hst⟩
    have hnone := h p hp
    simp only [hcls, if_true, hst] at hnone
    exact Option.noConfusion hnone
  · intro h p hp
    by_cases hcls : p.2.cls = "person"
    · by_cases hst : p.2.lastSeen - p.2.firstSeen < 300
      · exact absurd ⟨p, hp, hcls, hst⟩ h
      · simp only [hcls, if_true, hst, if_false]
    · simp only [hcls, if_false]

/-- C10: in each of the three per-business-type update methods, the
trailing average-stay-time step recomputes `average_stay_time` exactly when
some live tracked `person` has a stay time below 300 seconds; otherwise the
metrics are returned untouched, and in either case no other metric field is
modified by this step. -/
theorem averageStayTime_update_guarded :
    (∀ (tracking : List (String × ObjData)) (m : SupermarketMetrics),
      ((¬ ∃ p ∈ tracking, p.2.cls = "person" ∧ p.2.lastSeen - p.2.firstSeen < 300) →
        stayTimeStepSupermarket tracking m = m) ∧
      ((∃ p ∈ tracking, p.2.cls = "person" ∧ p.2.lastSeen - p.2.firstSeen < 300) →
        (stayTimeStepSupermarket tracking m).averageStayTime
            = listMean (stayTimes tracking) ∧
        (stayTimeStepSupermarket tracking m).personCount = m.personCount ∧
        (stayTimeStepSupermarket tracking m).cartCount = m.cartCount ∧
        (stayTimeStepSupermarket tracking m).productCount = m.productCount ∧
        (stayTimeStepSupermarket tracking m).zoneDensity = m.zoneDensity ∧
        (stayTimeStepSupermarket tracking m).backpackCount = m.backpackCount ∧
        (stayTimeStepSupermarket tracking m).handbagCount = m.handbagCount ∧
        (stayTimeStepSupermarket tracking m).cellphoneCount = m.cellphoneCount ∧
        (stayTimeStepSupermarket tracking m).peakHours = m.peakHours ∧
        (stayTimeStepSupermarket tracking m).objectTrends = m.objectTrends ∧
        (stayTimeStepSupermarket tracking m).zoneTransitions = m.zoneTransitions ∧
        (stayTimeStepSupermarket tracking m).performanceMetrics
            = m.performanceMetrics)) ∧
    (∀ (tracking : List (String × ObjData)) (m : PharmacyMetrics),
      ((¬ ∃ p ∈ tracking, p.2.cls = "person" ∧ p.2.lastSeen - p.2.firstSeen < 300) →
        stayTimeStepPharmacy tracking m = m) ∧
      ((∃ p ∈ tracking, p.2.cls = "person" ∧ p.2.lastSeen - p.2.firstSeen < 300) →
        (stayTimeStepPharmacy tracking m).averageStayTime
            = listMean (stayTimes tracking) ∧
        (stayTimeStepPharmacy tracking m).personCount = m.personCount ∧
        (stayTimeStepPharmacy tracking m).prescriptionCount = m.prescriptionCount ∧
        (stayTimeStepPharmacy tracking m).medicineCount = m.medicineCount ∧
        (stayTimeStepPharmacy tracking m).zoneDensity = m.zoneDensity ∧
        (stayTimeStepPharmacy tracking m).backpackCount = m.backpackCount ∧
        (stayTimeStepPharmacy tracking m).handbagCount = m.handbagCount ∧
        (stayTimeStepPharmacy tracking m).chairCount = m.chairCount ∧
        (stayTimeStepPharmacy tracking m).peakHours = m.peakHours ∧
        (stayTimeStepPharmacy tracking m).objectTrends = m.objectTrends ∧
        (stayTimeStepPharmacy tracking m).zoneTransitions = m.zoneTransitions ∧
        (stayTimeStepPharmacy tracking m).performanceMetrics
            = m.performanceMetrics)) ∧
    (∀ (tracking : List (String × ObjData)) (m : CondominiumMetrics),
      ((¬ ∃ p ∈ tracking, p.2.cls = "person" ∧ p.2.lastSeen - p.2.firstSeen < 300) →
        stayTimeStepCondominium tracking m = m) ∧
      ((∃ p ∈ tracking, p.2.cls = "person" ∧ p.2.lastSeen - p.2.firstSeen < 300) →
        (stayTimeStepCondominium tracking m).averageStayTime
            = listMean (stayTimes tracking) ∧
        (stayTimeStepCondominium tracking m).personCount = m.personCount ∧
        (stayTimeStepCondominium tracking m).carCount = m.carCount ∧
        (stayTimeStepCondominium tracking m).bicycleCount = m.bicycleCount ∧
        (stayTimeStepCondominium tracking m).zoneDensity = m.zoneDensity ∧
        (stayTimeStepCondominium tracking m).dogCount = m.dogCount ∧
        (stayTimeStepCondominium tracking m).catCount = m.catCount ∧
        (stayTimeStepCondominium tracking m).backpackCount = m.backpackCount ∧
        (stayTimeStepCondominium tracking m).peakHours = m.peakHours ∧
        (stayTimeStepCondominium tracking m).objectTrends = m.objectTrends ∧
        (stayTimeStepCondominium tracking m).zoneTransitions = m.zoneTransitions ∧
        (stayTimeStepCondominium tracking m).performanceMetrics
            = m.performanceMetrics)) := by
  refine ⟨fun tracking m => ⟨?_, ?_⟩, fun tracking m => ⟨?_, ?_⟩,
    fun tracking m => ⟨?_, ?_⟩⟩ <;> intro h
  · have hnil := (stayTimes_eq_nil_iff tracking).mpr h
    simp [stayTimeStepSupermarket, hnil]
  · have hne : stayTimes tracking ≠ [] :=
      fun hnil => (stayTimes_eq_nil_iff tracking).mp hnil h
    simp [stayTimeStepSupermarket, hne]
  · have hnil := (stayTimes_eq_nil_iff tracking).mpr h
    simp [stayTimeStepPharmacy, hnil]
  · have hne : stayTimes tracking ≠ [] :=
      fun hnil => (stayTimes_eq_nil_iff tracking).mp hnil h
    simp [stayTimeStepPharmacy, hne]
  · have hnil := (stayTimes_eq_nil_iff tracking).mpr h
    simp [stayTimeStepCondominium, hnil]
  · have hne : stayTimes tracking ≠ [] :=
      fun hnil => (stayTimes_eq_nil_iff tracking).mp hnil h
    simp [stayTimeStepCondominium, hne]

/-- A concrete tracked person used by witnesses. -/
def sampleTrackedPerson : ObjData :=
  { cls := "person", bbox := ⟨0, 0, 10, 10⟩, firstSeen := 0, lastSeen := 2,
    zone := "entrance", confidence := 9 / 10, trajectory := [⟨0, 0, 10, 10⟩] }

/-- C10 witness: an empty tracking table leaves the supermarket metrics
untouched, and a short-stay person updates the condominium average. -/
theorem averageStayTime_update_guarded_witness :
    stayTimeStepSupermarket [] initSupermarketMetrics = initSupermarketMetrics ∧
    (stayTimeStepCondominium [("person_0", sampleTrackedPerson)]
        initCondominiumMetrics).averageStayTime
      = listMean (stayTimes [("person_0", sampleTrackedPerson)]) :=
  ⟨(averageStayTime_update_guarded.1 [] initSupermarketMetrics).1 (by simp),
   ((averageStayTime_update_guarded.2.2 [("person_0", sampleTrackedPerson)]
      initCondominiumMetrics).2 (by with_unfolding_all decide)).1⟩

/-- Helper: the matching fold either keeps its accumulator (when no
same-class entry strictly beats it) or returns the first entry attaining
the strict maximum IoU above the accumulator. -/
lemma foldl_scanStep_spec (cls : String) (bbox : Box) (l : List (String × ObjData)) :
    ∀ acc : Option String × ℚ,
      (l.foldl (scanStep cls bbox) acc = acc ∧
        ∀ p ∈ l, p.2.cls = cls → calculateIou bbox p.2.bbox ≤ acc.2) ∨
      (∃ i : Fin l.length,
        (l.get i).2.cls = cls ∧
        calculateIou bbox (l.get i).2.bbox > acc.2 ∧
        l.foldl (scanStep cls bbox) acc
          = (some (l.get i).1, calculateIou bbox (l.get i).2.bbox) ∧
        (∀ p ∈ l, p.2.cls = cls →
          calculateIou bbox p.2.bbox ≤ calculateIou bbox (l.get i).2.bbox) ∧
        (∀ j : Fin l.length, (j : ℕ) < (i : ℕ) → (l.get j).2.cls = cls →
          calculateIou bbox (l.get j).2.bbox
            < calculateIou bbox (l.get i).2.bbox)) := by
  induction l with
  | nil =>
      intro acc
      left
      exact ⟨rfl, by simp⟩
  | cons p l ih =>
      intro acc
      by_cases hcls : p.2.cls = cls
      · by_cases hgt : calculateIou bbox p.2.bbox > acc.2
        · have hstep : scanStep cls bbox acc p
              = (some p.1, calculateIou bbox p.2.bbox) := by
            simp [scanStep, hcls, hgt]
          rcases ih (some p.1, calculateIou bbox p.2.bbox) with
            ⟨heq, hall⟩ | ⟨i, h1, h2, h3, h4, h5⟩
          · right
            refine ⟨⟨0, Nat.succ_pos _⟩, hcls, hgt, ?_, ?_, ?_⟩
            · rw [List.foldl_cons, hstep, heq]
              simp
            · intro q hq hqcls
              rcases List.mem_cons.mp hq with rfl | hq'
              · exact le_refl _
              · exact hall q hq' hqcls
            · intro j hj _
              exact absurd hj (Nat.not_lt_zero _)
          · right
            refine ⟨i.succ, by simpa using h1, ?_, ?_, ?_, ?_⟩
            · simpa using lt_trans hgt h2
            · rw [List.foldl_cons, hstep, h3]
              simp
            · intro q hq hqcls
              rcases List.mem_cons.mp hq with rfl | hq'
              · simpa using le_of_lt h2
              · simpa using h4 q hq' hqcls
            · rintro ⟨jv, hjv⟩ hj hjcls
              cases jv with
              | zero => simpa using h2
              | succ k =>
                  have hk : k < (i : ℕ) := by simpa using hj
                  have := h5 ⟨k, by omega⟩ hk (by simpa using hjcls)
                  simpa using this
        · have hstep : scanStep cls bbox acc p = acc := by
            simp [scanStep, hcls, hgt]
          have hple : calculateIou bbox p.2.bbox ≤ acc.2 := not_lt.mp hgt
          rcases ih acc with ⟨heq, hall⟩ | ⟨i, h1, h2, h3, h4, h5⟩
          · left
            refine ⟨by rw [List.foldl_cons, hstep, heq], ?_⟩
            intro q hq hqcls
            rcases List.mem_cons.mp hq with rfl | hq'
            · exact hple
            · exact hall q hq' hqcls
          · right
            refine ⟨i.succ, by simpa using h1, by simpa using h2, ?_, ?_, ?_⟩
            · rw [List.foldl_cons, hstep, h3]
              simp
            · intro q hq hqcls
              rcases List.mem_cons.mp hq with rfl | hq'
              · simpa using le_of_lt (lt_of_le_of_lt hple h2)
              · simpa using h4 q hq' hqcls
            · rintro ⟨jv, hjv⟩ hj hjcls
              cases jv with
              | zero => simpa using lt_of_le_of_lt hple h2
              | succ k =>
                  have hk : k < (i : ℕ) := by simpa using hj
                  have := h5 ⟨k, by omega⟩ hk (by simpa using hjcls)
                  simpa using this
      · have hstep : scanStep cls bbox acc p = acc := by
          simp [scanStep, hcls]
        rcases ih acc with ⟨heq, hall⟩ | ⟨i, h1, h2, h3, h4, h5⟩
        · left
          refine ⟨by rw [List.foldl_cons, hstep, heq], ?_⟩
          intro q hq hqcls
          rcases List.mem_cons.mp hq with rfl | hq'
          · exact absurd hqcls hcls
          · exact hall q hq' hqcls
        · right
          refine ⟨i.succ, by simpa using h1, by simpa using h2, ?_, ?_, ?_⟩
          · rw [List.foldl_cons, hstep, h3]
            simp
          · intro q hq hqcls
            rcases List.mem_cons.mp hq with rfl | hq'
            · exact absurd hqcls hcls
            · simpa using h4 q hq' hqcls
          · rintro ⟨jv, hjv⟩ hj hjcls
            cases jv with
            | zero => exact absurd (by simpa using hjcls) hcls
            | succ k =>
                have hk : k < (i : ℕ) := by simpa using hj
                have := h5 ⟨k, by omega⟩ hk (by simpa using hjcls)
                simpa using this

/-- Helper: when the scan returns the key of the live entry at index `i`,
`_track_object` returns that key and updates the matching entries in
place. -/
lemma trackObject_of_best (tracking : List (String × ObjData)) (det : Detection)
    (t : ℚ) (i : Fin (evictStale tracking t).length)
    (hbest : (scanBest (evictStale tracking t) det.className det.bbox).1
      = some ((evictStale tracking t).get i).1) :
    (trackObject tracking det t).objId = ((evictStale tracking t).get i).1 ∧
    (trackObject tracking det t).tracking
      = (evictStale tracking t).map fun p =>
          if p.1 = ((evictStale tracking t).get i).1
          then (p.1, updateRecord det t p.2) else p := by
  have hmem : (evictStale tracking t).get i ∈ evictStale tracking t :=
    (evictStale tracking t).get_mem i.1 i.2
  have hf : (List.find? (fun p => decide (p.1 = ((evictStale tracking t).get i).1))
      (evictStale tracking t)).isSome :=
    List.find?_isSome.mpr ⟨_, hmem, by simp⟩
  obtain ⟨q, hq⟩ := Option.isSome_iff_exists.mp hf
  have hobj : dictGet? (evictStale tracking t) ((evictStale tracking t).get i).1
      = some q.2 := by
    rw [dictGet?, hq]
    rfl
  simp only [List.get_eq_getElem] at hobj
  simp [trackObject, hbest, hobj]

/-- Helper: when no live same-class object exceeds the `0.5` IoU threshold,
`_track_object` allocates `"{class}_{len(tracking)}"` and stores a fresh
record under that key. -/
lemma trackObject_no_match (tracking : List (String × ObjData)) (det : Detection)
    (t : ℚ)
    (hall : ∀ p ∈ evictStale tracking t, p.2.cls = det.className →
      calculateIou det.bbox p.2.bbox ≤ 1 / 2) :
    (trackObject tracking det t).objId
        = det.className ++ "_" ++ toString (evictStale tracking t).length ∧
    (trackObject tracking det t).tracking
        = dictInsert (evictStale tracking t)
            (det.className ++ "_" ++ toString (evictStale tracking t).length)
            (freshRecord det t) := by
  have hbest : (scanBest (evictStale tracking t) det.className det.bbox).1
      = none := by
    rcases foldl_scanStep_spec det.className det.bbox (evictStale tracking t)
        (none, 1 / 2) with ⟨heq, _⟩ | ⟨i, h1, h2, _, _, _⟩
    · rw [scanBest, heq]
    · exact absurd h2
        (not_lt.mpr (hall _ ((evictStale tracking t).get_mem i.1 i.2) h1))
  simp [trackObject, hbest]

/-- C1: the tracker matches an incoming detection to a live (non-stale)
same-class object exactly when one exceeds IoU `0.5`; it then picks the
first object (in insertion order) attaining the maximal IoU and updates its
record in place; when no candidate exists it allocates the identity
`"{class}_{len(tracking)}"` and records a fresh entry. The embedding is a
total function, so the operation never fails. -/
theorem trackObject_match_rule (tracking : List (String × ObjData))
    (det : Detection) (t : ℚ) :
    ((∃ p ∈ evictStale tracking t, p.2.cls = det.className ∧
        calculateIou det.bbox p.2.bbox > 1 / 2) →
      ∃ i : Fin (evictStale tracking t).length,
        ((evictStale tracking t).get i).2.cls = det.className ∧
        calculateIou det.bbox ((evictStale tracking t).get i).2.bbox > 1 / 2 ∧
        (∀ p ∈ evictStale tracking t, p.2.cls = det.className →
          calculateIou det.bbox p.2.bbox
            ≤ calculateIou det.bbox ((evictStale tracking t).get i).2.bbox) ∧
        (∀ j : Fin (evictStale tracking t).length, (j : ℕ) < (i : ℕ) →
          ((evictStale tracking t).get j).2.cls = det.className →
          calculateIou det.bbox ((evictStale tracking t).get j).2.bbox
            < calculateIou det.bbox ((evictStale tracking t).get i).2.bbox) ∧
        (trackObject tracking det t).objId = ((evictStale tracking t).get i).1 ∧
        (trackObject tracking det t).tracking
          = (evictStale tracking t).map fun p =>
              if p.1 = ((evictStale tracking t).get i).1
              then (p.1, updateRecord det t p.2) else p) ∧
    ((∀ p ∈ evictStale tracking t, p.2.cls = det.className →
        calculateIou det.bbox p.2.bbox ≤ 1 / 2) →
      (trackObject tracking det t).objId
          = det.className ++ "_" ++ toString (evictStale tracking t).length ∧
      (trackObject tracking det t).tracking
          = dictInsert (evictStale tracking t)
              (det.className ++ "_" ++ toString (evictStale tracking t).length)
              (freshRecord det t)) := by
  constructor
  · rintro ⟨q, hq, hqcls, hqgt⟩
    rcases foldl_scanStep_spec det.className det.bbox (evictStale tracking t)
        (none, 1 / 2) with ⟨_, hall⟩ | ⟨i, h1, h2, h3, h4, h5⟩
    · exact absurd hqgt (not_lt.mpr (hall q hq hqcls))
    · have hbest : (scanBest (evictStale tracking t) det.className det.bbox).1
          = some ((evictStale tracking t).get i).1 := by
        rw [scanBest, h3]
      obtain ⟨ho1, ho2⟩ := trackObject_of_best tracking det t i hbest
      exact ⟨i, h1, h2, h4, h5, ho1, ho2⟩
  · intro hall
    exact trackObject_no_match tracking det t hall

/-- C1 witness: the no-candidate case of the rule applied to an empty
tracking table. -/
theorem trackObject_match_rule_witness :
    (trackObject ([] : List (String × ObjData)) sampleDetection 1).objId
        = sampleDetection.className ++ "_"
            ++ toString (evictStale ([] : List (String × ObjData)) 1).length ∧
    (trackObject ([] : List (String × ObjData)) sampleDetection 1).tracking
        = dictInsert (evictStale ([] : List (String × ObjData)) 1)
            (sampleDetection.className ++ "_"
              ++ toString (evictStale ([] : List (String × ObjData)) 1).length)
            (freshRecord sampleDetection 1) :=
  (trackObject_match_rule [] sampleDetection 1).2 (by simp [evictStale])

/-- A tracked person last seen at time 0, evicted by time 6. -/
def person0Record : ObjData :=
  { cls := "person", bbox := ⟨0, 0, 10, 10⟩, firstSeen := 0, lastSeen := 0,
    zone := "entrance", confidence := 1, trajectory := [⟨0, 0, 10, 10⟩] }

/-- A tracked person last seen at time 3, still live at time 6. -/
def person1Record : ObjData :=
  { cls := "person", bbox := ⟨100, 0, 110, 10⟩, firstSeen := 0, lastSeen := 3,
    zone := "middle", confidence := 1, trajectory := [⟨100, 0, 110, 10⟩] }

/-- A tracking table holding `person_0` and `person_1`. -/
def collisionTracking : List (String × ObjData) :=
  [("person_0", person0Record), ("person_1", person1Record)]

/-- A person detection overlapping neither live object. -/
def collisionDetection : Detection :=
  { className := "person", confidence := some 1, bbox := ⟨200, 0, 210, 10⟩,
    zone := some "exit" }

/-- C8: a newly allocated identity is `"{class}_{n}"` with `n` the number
of live tracked objects after eviction; concretely, after `person_0` is
evicted the table `[person_1]` has length 1, so the fresh detection at time
6 is given the identity `"person_1"` of the still-live object, whose record
is silently overwritten, and the number of tracked objects stays 1. -/
theorem trackObject_identity_collision :
    (∀ (tracking : List (String × ObjData)) (det : Detection) (t : ℚ),
      (∀ p ∈ evictStale tracking t, p.2.cls = det.className →
        calculateIou det.bbox p.2.bbox ≤ 1 / 2) →
      (trackObject tracking det t).objId
        = det.className ++ "_" ++ toString (evictStale tracking t).length) ∧
    ((evictStale collisionTracking 6).map Prod.fst = ["person_1"] ∧
     (trackObject collisionTracking collisionDetection 6).objId = "person_1" ∧
     (trackObject collisionTracking collisionDetection 6).tracking
        = [("person_1", freshRecord collisionDetection 6)] ∧
     (trackObject collisionTracking collisionDetection 6).tracking.length
        = (evictStale collisionTracking 6).length) := by
  refine ⟨fun tracking det t hall => (trackObject_no_match tracking det t hall).1,
    ?_, ?_, ?_, ?_⟩ <;> with_unfolding_all decide

/-- C8 witness: the identity formula applied at the collision scenario. -/
theorem trackObject_identity_collision_witness :
    (trackObject collisionTracking collisionDetection 6).objId
      = collisionDetection.className ++ "_"
          ++ toString (evictStale collisionTracking 6).length :=
  trackObject_identity_collision.1 collisionTracking collisionDetection 6
    (by with_unfolding_all decide)

end VisionEdge
